import Mathlib

/-! Shallow embedding of the MCP test server `mcp-test-server.py`:
the tool dispatcher (`call_tool`), the five tool handlers, and the
command executor (`run_command`), together with proofs of the specification
testable properties.

External behavior (process spawning, the filesystem, `os.chdir`) is
modelled by an explicit environment `Env`.  Each handler additionally
returns the trace of commands it passed to the executor, and — for the
handlers that call `os.chdir` — the resulting process state (`PState`,
the current working directory).
-/

namespace Mcp

/-- A dynamically-typed argument value, as found in the JSON argument
mapping handed to a handler (`Dict[str, Any]` in the source).  Only the
shapes the schemas declare (`boolean`, `string`) plus Python `None`. -/
inductive Value where
  | vBool (b : Bool)
  | vStr (s : String)
  | vNone
deriving DecidableEq

/-- Python `str()` of a value, as produced by f-string interpolation. -/
def Value.toStr : Value → String
  | .vBool true => "True"
  | .vBool false => "False"
  | .vStr s => s
  | .vNone => "None"

/-- Python truthiness of a value (`if v:`). -/
def Value.truthy : Value → Bool
  | .vBool b => b
  | .vStr s => s != ""
  | .vNone => false

/-- The argument mapping of a tool invocation (keys are unique in a
Python dict; lookup takes the first matching key). -/
abbrev Args := List (String × Value)

/-- Dictionary lookup `arguments[key]`, underlying `arguments.get`. -/
def lookupArg (args : Args) (key : String) : Option Value :=
  match args with
  | [] => Option.none
  | (k, v) :: rest => if k = key then some v else lookupArg rest key

/-- Python `arguments.get(key, default)`. -/
def getD (args : Args) (key : String) (dflt : Value) : Value :=
  (lookupArg args key).getD dflt

/-- Truthiness of `arguments.get(key)` (absent key is `None`, falsy). -/
def optTruthy (o : Option Value) : Bool :=
  match o with
  | Option.none => false
  | some v => v.truthy

/-- f-string rendering of `arguments.get(key)`. -/
def optStr (o : Option Value) : String :=
  (o.map Value.toStr).getD "None"

/-- The result dict produced by `run_command`: exit code plus fully
captured, decoded standard output and standard error. -/
structure ExecResult where
  returncode : Int
  stdout : String
  stderr : String
deriving DecidableEq

/-- A single text content block of a tool response. -/
structure TextContent where
  text : String
deriving DecidableEq

/-- Response envelope `CallToolResult`: an ordered sequence of text
blocks. -/
structure CallToolResult where
  content : List TextContent
deriving DecidableEq

/-- Build the one-block response every handler branch produces. -/
def mkText (s : String) : CallToolResult := ⟨[⟨s⟩]⟩

/-- The text of the first content block (every handler returns exactly
one block). -/
def responseText (r : CallToolResult) : String :=
  (r.content.headD ⟨""⟩).text

/-- The trace of commands passed to the executor, in call order. -/
abbrev Trace := List (List String)

/-- The external world as seen by the server process: the repository
root path (`Path(__file__).parent`), the outcome of spawning a command
(`Except.error e` models an exception raised while spawning/decoding,
carrying `str(e)`), the outcome of `os.chdir(REPO_ROOT)`, and the
relevant filesystem observations. -/
structure Env where
  repoRoot : String
  spawn : List String → Except String ExecResult
  chdir : Except String Unit
  testDirExists : Bool
  testDirEntries : List String
  testPathExists : String → Bool

/-- Mutable process state of the dispatcher process: the current
working directory (mutated only by `os.chdir(REPO_ROOT)`). -/
structure PState where
  cwd : String
deriving DecidableEq

/-- Python whitespace, as stripped by `str.strip()` (ASCII part). -/
def isPySpace (c : Char) : Bool :=
  c = ' ' || c = '\t' || c = '\n' || c = '\r' || c = '\x0b' || c = '\x0c'

/-- Python `str.strip()` on the underlying character list. -/
def pyStripList (l : List Char) : List Char :=
  ((l.dropWhile isPySpace).reverse.dropWhile isPySpace).reverse

/-- Python `str.strip()`. -/
def pyStrip (s : String) : String :=
  String.mk (pyStripList s.data)

/-- The `ExecResult` that `run_command` returns: the result of the
spawned process, or — when spawning raised — the synthetic `-1` result with the
error message in the standard-error field. -/
def spawnResult (env : Env) (cmd : List String) : ExecResult :=
  match env.spawn cmd with
  | Except.ok r => r
  | Except.error e => ⟨-1, "", "Command execution failed: " ++ e⟩

/-- Executor `run_command(cmd, verbose)`: run a command and return the result
(the `verbose` parameter is accepted and ignored by the source), paired
with the one-element executor trace. -/
def run_command (env : Env) (cmd : List String) (verboseArg : Value) :
    ExecResult × Trace :=
  let _ := verboseArg
  (spawnResult env cmd, [cmd])

/-- Helper `check_docker_availability()`: `none` models the dict
with available True; `some e` models available False with error `e`. -/
def check_docker_availability (env : Env) : Option String × Trace :=
  let p1 := run_command env ["docker", "--version"] (Value.vBool false)
  if p1.1.returncode ≠ 0 then (some "Docker not found", p1.2)
  else
    let p2 := run_command env ["docker", "compose", "version"] (Value.vBool false)
    if p2.1.returncode ≠ 0 then (some "Docker Compose not found", p1.2 ++ p2.2)
    else (Option.none, p1.2 ++ p2.2)

/-- The dict returned by the `build_image` helper. -/
structure BuildResult where
  success : Bool
  output : String
  error : Option String
deriving DecidableEq

/-- Helper `build_image(force)`: run `docker compose build` (with `--no-cache`
when `force` is truthy). -/
def build_image (env : Env) (force : Value) : BuildResult × Trace :=
  let cmd := ["docker", "compose", "build"] ++
    (if force.truthy then ["--no-cache"] else [])
  let p := run_command env cmd (Value.vBool false)
  (⟨p.1.returncode == 0, p.1.stdout ++ p.1.stderr,
    if p.1.returncode == 0 then Option.none else some "Build failed"⟩, p.2)

/-- The `run_tests` handler.  Returns the response, the executor trace,
and the process state after the call. -/
def run_tests (env : Env) (st : PState) (args : Args) :
    CallToolResult × Trace × PState :=
  let verbose := getD args "verbose" (Value.vBool false)
  let stest := lookupArg args "specific_test"
  let rebuild := getD args "rebuild" (Value.vBool false)
  match env.chdir with
  | Except.error e => (mkText ("Error running tests: " ++ e), [], st)
  | Except.ok _ =>
    let st2 : PState := ⟨env.repoRoot⟩
    let dc := check_docker_availability env
    match dc.1 with
    | some e => (mkText ("Docker not available: " ++ e), dc.2, st2)
    | Option.none =>
      let runPhase := fun (tpre : Trace) =>
        let cmd :=
          if optTruthy stest then
            ["docker", "compose", "run", "--rm", "lua-test", "sh", "-c",
              "echo \x27=== Running " ++ optStr stest ++ " ===\x27 && lua test/" ++
                optStr stest]
          else ["./test/run-tests.sh"]
        let p := run_command env cmd verbose
        let output := p.1.stdout ++ p.1.stderr
        let success := p.1.returncode == 0
        let status := if success then "✅ PASSED" else "❌ FAILED"
        let formatted := pyStrip ("\n" ++ status ++ " - UCI Config Tool Tests\n\n" ++
          "Return Code: " ++ toString p.1.returncode ++
          "\n\n=== TEST OUTPUT ===\n" ++ output ++
          "\n\n=== SUMMARY ===\nTests " ++
          (if success then "completed successfully" else "failed") ++ "\n        ")
        (mkText formatted, tpre ++ p.2, st2)
      if rebuild.truthy then
        let b := build_image env rebuild
        if b.1.success then runPhase (dc.2 ++ b.2)
        else (mkText ("Failed to build Docker image: " ++ b.1.error.getD "None"),
          dc.2 ++ b.2, st2)
      else runPhase dc.2

/-- Message of the `KeyError` raised by `arguments["test_file"]`. -/
def keyErrorTestFile : String := "\x27test_file\x27"

/-- Message of the `TypeError` raised by joining a `Path` with a
non-string value (exact wording is Python-version dependent). -/
def pathTypeErrorMsg : String :=
  "argument should be a str or an os.PathLike object, not a non-string value"

/-- The `run_single_test` handler. -/
def run_single_test (env : Env) (st : PState) (args : Args) :
    CallToolResult × Trace × PState :=
  match lookupArg args "test_file" with
  | Option.none =>
    (mkText ("Error running single test: " ++ keyErrorTestFile), [], st)
  | some tf =>
    let verbose := getD args "verbose" (Value.vBool false)
    match tf with
    | Value.vStr s =>
      if env.testPathExists s then
        run_tests env st
          [("verbose", verbose), ("specific_test", Value.vStr s),
           ("rebuild", Value.vBool false)]
      else (mkText ("Test file not found: " ++ s), [], st)
    | _ =>
      (mkText ("Error running single test: " ++ pathTypeErrorMsg), [], st)

/-- The `build_test_image` handler. -/
def build_test_image (env : Env) (st : PState) (args : Args) :
    CallToolResult × Trace × PState :=
  let force := getD args "force" (Value.vBool false)
  match env.chdir with
  | Except.error e => (mkText ("Error building image: " ++ e), [], st)
  | Except.ok _ =>
    let st2 : PState := ⟨env.repoRoot⟩
    let dc := check_docker_availability env
    match dc.1 with
    | some e => (mkText ("Docker not available: " ++ e), dc.2, st2)
    | Option.none =>
      let cmd := ["docker", "compose", "build"] ++
        (if force.truthy then ["--no-cache"] else [])
      let p := run_command env cmd (Value.vBool true)
      let status := if p.1.returncode == 0 then "✅ Build successful" else "❌ Build failed"
      let text := pyStrip ("\n" ++ status ++ "\n\n=== BUILD OUTPUT ===\n" ++
        p.1.stdout ++ "\n" ++ p.1.stderr ++ "\n        ")
      (mkText text, dc.2 ++ p.2, st2)

/-- The glob pattern `test_*.lua` on a file name. -/
def globTestLua (name : String) : Bool :=
  "test_".data.isPrefixOf name.data && ".lua".data.isSuffixOf name.data

/-- Lexicographic (code-point) order on strings, as Python compares. -/
def charListLe : List Char → List Char → Bool
  | [], _ => true
  | _ :: _, [] => false
  | a :: as, b :: bs =>
    if a.val < b.val then true
    else if b.val < a.val then false
    else charListLe as bs

/-- Python string `<=`. -/
def pyStrLe (a b : String) : Bool := charListLe a.data b.data

/-- Insert into a sorted list (helper for `pySorted`). -/
def insertSorted (x : String) : List String → List String
  | [] => [x]
  | y :: ys => if pyStrLe x y then x :: y :: ys else y :: insertSorted x ys

/-- Python `sorted` on a list of strings (insertion sort; stable, and
agreed upon by every comparison sort on the same multiset). -/
def pySorted : List String → List String
  | [] => []
  | x :: xs => insertSorted x (pySorted xs)

/-- The `list_test_files` handler. -/
def list_test_files (env : Env) (argsIgnored : Args) :
    CallToolResult × Trace :=
  let _ := argsIgnored
  let files := if env.testDirExists then env.testDirEntries.filter globTestLua else []
  let text :=
    if files.isEmpty then "No test files found in test/ directory"
    else "Available test files:\n" ++
      String.intercalate "\n" ((pySorted files).map (fun f => "  - " ++ f))
  (mkText text, [])

/-- The `check_docker_status` handler. -/
def check_docker_status (env : Env) (argsIgnored : Args) :
    CallToolResult × Trace :=
  let _ := argsIgnored
  let dc := check_docker_availability env
  match dc.1 with
  | some e =>
    (mkText (pyStrip ("\n❌ Docker Environment Not Available\n\n" ++
      "Error: " ++ e ++
      "\n\nPlease ensure Docker and Docker Compose are installed and running." ++
      "\n            ")), dc.2)
  | Option.none =>
    let p1 := run_command env ["docker", "--version"] (Value.vBool false)
    let p2 := run_command env ["docker", "compose", "version"] (Value.vBool false)
    (mkText (pyStrip ("\n" ++ "✅ Docker Environment Ready\n\nDocker: " ++
      pyStrip p1.1.stdout ++
      "\nDocker Compose: " ++ pyStrip p2.1.stdout ++
      "\n\nRepository: " ++ env.repoRoot ++
      "\nTest Script: " ++ (env.repoRoot ++ "/test/run-tests.sh") ++
      "\nDocker Compose File: " ++ (env.repoRoot ++ "/docker-compose.yml") ++
      "\n            ")), dc.2 ++ p1.2 ++ p2.2)

/-- The dispatcher registry, in `list_tools` order; populated once at
startup (a fixed constant) and never mutated. -/
def registeredTools : List String :=
  ["run_tests", "run_single_test", "build_test_image", "list_test_files",
   "check_docker_status"]

/-- Dispatcher `call_tool(name, arguments)`: dispatch on the tool name.  An
unregistered name raises `ValueError` (`Except.error`); a registered
name returns the handler response (`Except.ok`).  The second
component is the process state after the call. -/
def call_tool (env : Env) (st : PState) (name : String) (args : Args) :
    Except String (CallToolResult × Trace) × PState :=
  if name = "run_tests" then
    let r := run_tests env st args
    (Except.ok (r.1, r.2.1), r.2.2)
  else if name = "run_single_test" then
    let r := run_single_test env st args
    (Except.ok (r.1, r.2.1), r.2.2)
  else if name = "build_test_image" then
    let r := build_test_image env st args
    (Except.ok (r.1, r.2.1), r.2.2)
  else if name = "list_test_files" then
    let r := list_test_files env args
    (Except.ok r, st)
  else if name = "check_docker_status" then
    let r := check_docker_status env args
    (Except.ok r, st)
  else (Except.error ("Unknown tool: " ++ name), st)

/-- Process state after a sequence of `call_tool` invocations. -/
def runSeq (env : Env) (st : PState) : List (String × Args) → PState
  | [] => st
  | (n, a) :: rest => runSeq env (call_tool env st n a).2 rest

/-- Predicate: `s` contains `m` as a contiguous substring. -/
def containsStr (s m : String) : Prop := ∃ p q, s = p ++ m ++ q

/-- Predicate: `s` starts with the prefix `p`. -/
def strStarts (s p : String) : Prop := ∃ rest, s = p ++ rest

/-! Section: Helper lemmas about `pyStrip` and string concatenation -/

theorem dropWhile_append_of_forall {p : Char → Bool} {a : List Char}
    (h : ∀ c ∈ a, p c = true) (b : List Char) :
    List.dropWhile p (a ++ b) = List.dropWhile p b := by
  induction a with
  | nil => simp
  | cons x xs ih =>
    simp only [List.cons_append, List.dropWhile_cons, h x (List.mem_cons_self x xs),
      if_true]
    exact ih (fun c hc => h c (List.mem_cons_of_mem _ hc))

theorem pyStripList_sandwich {a m b : List Char}
    (ha : ∀ c ∈ a, isPySpace c = true) (hb : ∀ c ∈ b, isPySpace c = true)
    (h1 : ∀ c, m.head? = some c → isPySpace c = false)
    (h2 : ∀ c, m.getLast? = some c → isPySpace c = false) :
    pyStripList (a ++ m ++ b) = m := by
  unfold pyStripList
  rw [List.append_assoc, dropWhile_append_of_forall ha]
  cases m with
  | nil =>
    have hb' : List.dropWhile isPySpace b = [] := List.dropWhile_eq_nil_iff.mpr hb
    simp [hb']
  | cons x xs =>
    have hx : isPySpace x = false := h1 x rfl
    rw [show List.dropWhile isPySpace (x :: xs ++ b) = x :: xs ++ b by
      simp [List.dropWhile_cons, hx]]
    rw [List.reverse_append,
      dropWhile_append_of_forall (fun c hc => hb c (List.mem_reverse.mp hc))]
    obtain ⟨cl, hcl⟩ : ∃ cl, (x :: xs).getLast? = some cl := by
      cases e : (x :: xs).getLast? with
      | none => exact absurd e (by simp)
      | some c => exact ⟨c, rfl⟩
    have hrev : (x :: xs).reverse.head? = some cl := by
      rw [List.head?_reverse]; exact hcl
    have hdw : List.dropWhile isPySpace (x :: xs).reverse = (x :: xs).reverse := by
      cases er : (x :: xs).reverse with
      | nil => exact absurd er (by simp)
      | cons y ys =>
        have hy : y = cl := by rw [er] at hrev; simpa using hrev
        have hns : isPySpace y = false := hy ▸ h2 cl hcl
        simp [List.dropWhile_cons, hns]
    rw [hdw, List.reverse_reverse]

theorem pyStrip_sandwich (a m b : String)
    (ha : ∀ c ∈ a.data, isPySpace c = true) (hb : ∀ c ∈ b.data, isPySpace c = true)
    (h1 : ∀ c, m.data.head? = some c → isPySpace c = false)
    (h2 : ∀ c, m.data.getLast? = some c → isPySpace c = false) :
    pyStrip (a ++ m ++ b) = m := by
  apply String.ext
  show pyStripList (a ++ m ++ b).data = m.data
  rw [String.data_append, String.data_append]
  exact pyStripList_sandwich ha hb h1 h2

theorem headCharOfAppend {s : String} (t : String) {c : Char}
    (h : s.data.head? = some c) : (s ++ t).data.head? = some c := by
  rw [String.data_append, List.head?_append, h]; rfl

theorem lastCharOfAppend (s : String) {t : String} {c : Char}
    (h : t.data.getLast? = some c) : (s ++ t).data.getLast? = some c := by
  rw [String.data_append, List.getLast?_append, h]; rfl

theorem strStarts_take {s p : String} (h : strStarts s p) :
    s.data.take p.data.length = p.data := by
  obtain ⟨rest, hrest⟩ := h
  subst hrest
  rw [String.data_append, List.take_append_of_le_length (le_refl _), List.take_length]

/-! Section: Shape lemmas: every handler branch yields exactly one text block -/

theorem run_tests_one_block (env : Env) (st : PState) (args : Args) :
    ∃ s, (run_tests env st args).1 = mkText s := by
  simp only [run_tests]
  repeat' split
  all_goals exact ⟨_, rfl⟩

theorem run_single_test_one_block (env : Env) (st : PState) (args : Args) :
    ∃ s, (run_single_test env st args).1 = mkText s := by
  simp only [run_single_test]
  repeat' split
  all_goals first
    | exact ⟨_, rfl⟩
    | apply run_tests_one_block

theorem build_test_image_one_block (env : Env) (st : PState) (args : Args) :
    ∃ s, (build_test_image env st args).1 = mkText s := by
  simp only [build_test_image]
  repeat' split
  all_goals exact ⟨_, rfl⟩

theorem list_test_files_one_block (env : Env) (args : Args) :
    ∃ s, (list_test_files env args).1 = mkText s := by
  simp only [list_test_files]
  repeat' split
  all_goals exact ⟨_, rfl⟩

theorem check_docker_status_one_block (env : Env) (args : Args) :
    ∃ s, (check_docker_status env args).1 = mkText s := by
  simp only [check_docker_status]
  repeat' split
  all_goals exact ⟨_, rfl⟩

/-! Section: Concrete environments used to instantiate the theorems -/

/-- An environment in which every spawn succeeds with exit code 0,
`os.chdir` succeeds, and the test directory exists. -/
def envOk : Env :=
  ⟨"/repo", fun _ => Except.ok ⟨0, "out", "err"⟩, Except.ok (), true,
   ["test_b.lua", "other.txt", "test_a.lua"], fun _ => true⟩

/-- An environment in which every spawn raises, `os.chdir` succeeds,
and the test directory does not exist. -/
def envFail : Env :=
  ⟨"/repo", fun _ => Except.error "boom", Except.ok (), false, [],
   fun _ => false⟩

/-! Section: C1: `call_tool` on a registered name never raises and returns
a response with at least one text block -/

/-- C1: for every registered tool name, every argument mapping, every
environment (including ones where the executor or the filesystem fail)
and every process state, `call_tool` returns `Except.ok` (it does not
raise) carrying a `CallToolResult` with at least one text block. -/
theorem c1_call_tool_total (env : Env) (st : PState) (name : String) (args : Args)
    (h : name ∈ registeredTools) :
    ∃ r t st2, call_tool env st name args = (Except.ok (r, t), st2) ∧
      r.content ≠ [] := by
  have hmk : ∀ s, (mkText s).content ≠ [] := by intro s; simp [mkText]
  simp only [registeredTools, List.mem_cons, List.not_mem_nil, or_false] at h
  rcases h with h | h | h | h | h <;> subst h
  · obtain ⟨s, hs⟩ := run_tests_one_block env st args
    exact ⟨(run_tests env st args).1, (run_tests env st args).2.1,
      (run_tests env st args).2.2, by simp [call_tool], by rw [hs]; exact hmk s⟩
  · obtain ⟨s, hs⟩ := run_single_test_one_block env st args
    exact ⟨(run_single_test env st args).1, (run_single_test env st args).2.1,
      (run_single_test env st args).2.2, by simp [call_tool], by rw [hs]; exact hmk s⟩
  · obtain ⟨s, hs⟩ := build_test_image_one_block env st args
    exact ⟨(build_test_image env st args).1, (build_test_image env st args).2.1,
      (build_test_image env st args).2.2, by simp [call_tool], by rw [hs]; exact hmk s⟩
  · obtain ⟨s, hs⟩ := list_test_files_one_block env args
    exact ⟨(list_test_files env args).1, (list_test_files env args).2,
      st, by simp [call_tool], by rw [hs]; exact hmk s⟩
  · obtain ⟨s, hs⟩ := check_docker_status_one_block env args
    exact ⟨(check_docker_status env args).1, (check_docker_status env args).2,
      st, by simp [call_tool], by rw [hs]; exact hmk s⟩

/-- C1 witness: instantiation at `run_tests` in the all-spawns-raise
environment. -/
theorem c1_call_tool_total_witness :
    "run_tests" ∈ registeredTools ∧
      ∃ r t st2, call_tool envFail ⟨"/"⟩ "run_tests" [] = (Except.ok (r, t), st2) ∧
        r.content ≠ [] :=
  ⟨by decide, c1_call_tool_total envFail ⟨"/"⟩ "run_tests" [] (by decide)⟩

/-! Section: C2: `call_tool` on an unregistered name signals a
dispatcher-level error -/

/-- C2: for every name outside the registry of five tools, `call_tool`
raises the dispatcher-level `ValueError` (modelled `Except.error`), not
a normal `CallToolResult`, and leaves the process state unchanged. -/
theorem c2_unknown_tool (env : Env) (st : PState) (name : String) (args : Args)
    (h : name ∉ registeredTools) :
    call_tool env st name args = (Except.error ("Unknown tool: " ++ name), st) := by
  simp only [registeredTools, List.mem_cons, List.not_mem_nil, or_false, not_or] at h
  obtain ⟨h1, h2, h3, h4, h5⟩ := h
  simp [call_tool, h1, h2, h3, h4, h5]

/-- C2 witness: instantiation at the unregistered name `"frobnicate"`. -/
theorem c2_unknown_tool_witness :
    "frobnicate" ∉ registeredTools ∧
      call_tool envOk ⟨"/"⟩ "frobnicate" [] =
        (Except.error ("Unknown tool: " ++ "frobnicate"), ⟨"/"⟩) :=
  ⟨by decide, c2_unknown_tool envOk ⟨"/"⟩ "frobnicate" [] (by decide)⟩

/-! Section: C6: the executor converts spawn failures into a synthetic
result instead of raising -/

/-- C6: whenever spawning a command raises (executable missing, OS
error), `run_command` does not propagate the fault: it returns the
synthetic `ExecResult` with exit code `-1`, empty standard output, and
the error message in the standard-error field, having invoked the
executor exactly once. -/
theorem c6_run_command_spawn_failure (env : Env) (cmd : List String) (v : Value)
    (e : String) (h : env.spawn cmd = Except.error e) :
    run_command env cmd v =
      (⟨-1, "", "Command execution failed: " ++ e⟩, [cmd]) := by
  simp [run_command, spawnResult, h]

/-- C6 witness: instantiation in the all-spawns-raise environment. -/
theorem c6_run_command_spawn_failure_witness :
    envFail.spawn ["docker", "--version"] = Except.error "boom" ∧
      run_command envFail ["docker", "--version"] (Value.vBool false) =
        (⟨-1, "", "Command execution failed: " ++ "boom"⟩,
          [["docker", "--version"]]) :=
  ⟨rfl, c6_run_command_spawn_failure envFail ["docker", "--version"]
    (Value.vBool false) "boom" rfl⟩

/-! Section: C3: `run_single_test` on a missing file fails fast -/

/-- C3: whenever the `test_file` argument names a file that does not
exist under the test directory, `run_single_test` returns the
"not found" response, invokes the executor zero times (empty trace),
and leaves the process state unchanged. -/
theorem c3_run_single_test_not_found (env : Env) (st : PState) (args : Args)
    (s : String)
    (h1 : lookupArg args "test_file" = some (Value.vStr s))
    (h2 : env.testPathExists s = false) :
    run_single_test env st args =
      (mkText ("Test file not found: " ++ s), [], st) := by
  simp [run_single_test, h1, h2]

/-- C3 witness: instantiation at `test_file = "test_missing.lua"` in an
environment where no test file exists. -/
theorem c3_run_single_test_not_found_witness :
    lookupArg [("test_file", Value.vStr "test_missing.lua")] "test_file" =
        some (Value.vStr "test_missing.lua") ∧
      envFail.testPathExists "test_missing.lua" = false ∧
      run_single_test envFail ⟨"/"⟩ [("test_file", Value.vStr "test_missing.lua")] =
        (mkText ("Test file not found: " ++ "test_missing.lua"), [], ⟨"/"⟩) :=
  ⟨rfl, rfl, c3_run_single_test_not_found envFail ⟨"/"⟩
    [("test_file", Value.vStr "test_missing.lua")] "test_missing.lua" rfl rfl⟩

/-! Section: Trace analysis helpers -/

theorem cda_trace_cases (env : Env) :
    check_docker_availability env =
        (some "Docker not found", [["docker", "--version"]]) ∨
    check_docker_availability env =
        (some "Docker Compose not found",
          [["docker", "--version"], ["docker", "compose", "version"]]) ∨
    check_docker_availability env =
        (Option.none, [["docker", "--version"], ["docker", "compose", "version"]]) := by
  simp only [check_docker_availability, run_command]
  split
  · left; rfl
  · split
    · right; left; rfl
    · right; right; rfl

theorem run_tests_trace_mem (env : Env) (st : PState) (args : Args)
    (hreb : (getD args "rebuild" (Value.vBool false)).truthy = false)
    (c : List String) (hc : c ∈ (run_tests env st args).2.1) :
    c = ["docker", "--version"] ∨ c = ["docker", "compose", "version"] ∨
    c = ["./test/run-tests.sh"] ∨
    (∃ s, c = ["docker", "compose", "run", "--rm", "lua-test", "sh", "-c", s]) := by
  cases henv : env.chdir with
  | error e => simp only [run_tests, henv] at hc; simp at hc
  | ok u =>
    rcases cda_trace_cases env with h | h | h <;>
      simp only [run_tests, run_command, henv, h, hreb] at hc
    · simp at hc; exact Or.inl hc
    · simp at hc
      rcases hc with h1 | h1
      · exact Or.inl h1
      · exact Or.inr (Or.inl h1)
    · by_cases hst : optTruthy (lookupArg args "specific_test") = true
      · simp [hst] at hc
        rcases hc with h1 | h1 | h1
        · exact Or.inl h1
        · exact Or.inr (Or.inl h1)
        · exact Or.inr (Or.inr (Or.inr ⟨_, h1⟩))
      · simp [hst] at hc
        rcases hc with h1 | h1 | h1
        · exact Or.inl h1
        · exact Or.inr (Or.inl h1)
        · exact Or.inr (Or.inr (Or.inl h1))

/-! Section: C8: `run_single_test` delegates to `run_tests` with `rebuild`
forced false -/

/-- C8: when `test_file` names a file existing under the test
directory, the entire result of `run_single_test` (response, executor trace,
process state) equals the `run_tests` handler applied to
`{verbose, specific_test := the file, rebuild := false}`; moreover
`run_single_test` never triggers an image rebuild: no
`docker compose build` invocation ever appears in its executor trace,
for any arguments and environment. -/
theorem c8_run_single_test_delegates :
    (∀ (env : Env) (st : PState) (args : Args) (s : String),
        lookupArg args "test_file" = some (Value.vStr s) →
        env.testPathExists s = true →
        run_single_test env st args =
          run_tests env st
            [("verbose", getD args "verbose" (Value.vBool false)),
             ("specific_test", Value.vStr s), ("rebuild", Value.vBool false)]) ∧
    (∀ (env : Env) (st : PState) (args : Args),
        ["docker", "compose", "build"] ∉ (run_single_test env st args).2.1 ∧
        ["docker", "compose", "build", "--no-cache"] ∉ (run_single_test env st args).2.1) := by
  constructor
  · intro env st args s h1 h2
    simp [run_single_test, h1, h2]
  · intro env st args
    cases hl : lookupArg args "test_file" with
    | none =>
      constructor <;> intro hmem <;> simp only [run_single_test, hl] at hmem <;>
        simp at hmem
    | some tf =>
      cases tf with
      | vStr s =>
        cases hex : env.testPathExists s with
        | true =>
          have hreb : (getD [("verbose", getD args "verbose" (Value.vBool false)),
              ("specific_test", Value.vStr s), ("rebuild", Value.vBool false)]
              "rebuild" (Value.vBool false)).truthy = false := by
            simp [getD, lookupArg, Value.truthy]
          constructor <;> intro hmem <;>
            simp only [run_single_test, hl, hex, if_true] at hmem
          · rcases run_tests_trace_mem env st _ hreb _ hmem with h | h | h | ⟨s2, h⟩ <;>
              simp at h
          · rcases run_tests_trace_mem env st _ hreb _ hmem with h | h | h | ⟨s2, h⟩ <;>
              simp at h
        | false =>
          constructor <;> intro hmem <;>
            simp only [run_single_test, hl, hex] at hmem <;> simp at hmem
      | vBool b =>
        constructor <;> intro hmem <;> simp only [run_single_test, hl] at hmem <;>
          simp at hmem
      | vNone =>
        constructor <;> intro hmem <;> simp only [run_single_test, hl] at hmem <;>
          simp at hmem

/-- C8 witness: instantiation at an existing file in the all-ok
environment. -/
theorem c8_run_single_test_delegates_witness :
    lookupArg [("test_file", Value.vStr "test_a.lua")] "test_file" =
        some (Value.vStr "test_a.lua") ∧
      envOk.testPathExists "test_a.lua" = true ∧
      run_single_test envOk ⟨"/"⟩ [("test_file", Value.vStr "test_a.lua")] =
        run_tests envOk ⟨"/"⟩
          [("verbose", getD [("test_file", Value.vStr "test_a.lua")] "verbose"
              (Value.vBool false)),
           ("specific_test", Value.vStr "test_a.lua"),
           ("rebuild", Value.vBool false)] ∧
      ["docker", "compose", "build"] ∉
        (run_single_test envOk ⟨"/"⟩ [("test_file", Value.vStr "test_a.lua")]).2.1 :=
  ⟨rfl, rfl,
    c8_run_single_test_delegates.1 envOk ⟨"/"⟩
      [("test_file", Value.vStr "test_a.lua")] "test_a.lua" rfl rfl,
    (c8_run_single_test_delegates.2 envOk ⟨"/"⟩
      [("test_file", Value.vStr "test_a.lua")]).1⟩

/-! Section: C5: `list_test_files` output -/

/-- C5: on an empty or non-existent test directory `list_test_files`
answers exactly "No test files found in test/ directory" (directory
non-existence is a normal response, never an error); and when the
directory holds `test_a.lua`, `test_b.lua`, `other.txt` (in any order)
the response lists exactly the two `test_*.lua` names, sorted
alphabetically. -/
theorem c5_list_test_files :
    (∀ (env : Env) (args : Args),
        env.testDirExists = false ∨ env.testDirEntries = [] →
        responseText (list_test_files env args).1 =
          "No test files found in test/ directory") ∧
    (∀ (env : Env) (args : Args),
        env.testDirExists = true →
        env.testDirEntries.Perm ["test_a.lua", "test_b.lua", "other.txt"] →
        responseText (list_test_files env args).1 =
          "Available test files:\n  - test_a.lua\n  - test_b.lua") := by
  constructor
  · intro env args h
    rcases h with h | h <;> simp [list_test_files, responseText, mkText, h]
  · intro env args hE hP
    have hp := List.mem_permutations'.mpr hP
    rw [show List.permutations' ["test_a.lua", "test_b.lua", "other.txt"] =
        [["test_a.lua", "test_b.lua", "other.txt"],
         ["test_b.lua", "test_a.lua", "other.txt"],
         ["test_b.lua", "other.txt", "test_a.lua"],
         ["test_a.lua", "other.txt", "test_b.lua"],
         ["other.txt", "test_a.lua", "test_b.lua"],
         ["other.txt", "test_b.lua", "test_a.lua"]] from by decide] at hp
    simp only [List.mem_cons, List.not_mem_nil, or_false] at hp
    rcases hp with h | h | h | h | h | h <;>
      simp only [list_test_files, responseText, mkText, hE, h] <;> decide

/-- C5 witness: both parts, instantiated at a missing directory and at
a directory holding the three files in a scrambled order. -/
theorem c5_list_test_files_witness :
    (envFail.testDirExists = false ∨ envFail.testDirEntries = []) ∧
      responseText (list_test_files envFail []).1 =
        "No test files found in test/ directory" ∧
      envOk.testDirExists = true ∧
      (envOk.testDirEntries.Perm ["test_a.lua", "test_b.lua", "other.txt"]) ∧
      responseText (list_test_files envOk []).1 =
        "Available test files:\n  - test_a.lua\n  - test_b.lua" :=
  ⟨Or.inl rfl, c5_list_test_files.1 envFail [] (Or.inl rfl), rfl, by decide,
    c5_list_test_files.2 envOk [] rfl (by decide)⟩

/-! Section: C10: `verbose` does not influence `run_tests` -/

/-- C10: `run_tests` is insensitive to the `verbose` argument (and to
every argument other than `specific_test` and `rebuild`): two argument
mappings agreeing on those two keys produce the identical command
trace, identical response text, and identical final state, for any
fixed external behavior. -/
theorem c10_run_tests_verbose_irrelevant (env : Env) (st : PState)
    (a1 a2 : Args)
    (hs : lookupArg a1 "specific_test" = lookupArg a2 "specific_test")
    (hr : getD a1 "rebuild" (Value.vBool false) = getD a2 "rebuild" (Value.vBool false)) :
    run_tests env st a1 = run_tests env st a2 := by
  simp only [run_tests, run_command]
  rw [hs, hr]

/-- C10 witness: `verbose = true` versus `verbose = false`. -/
theorem c10_run_tests_verbose_irrelevant_witness :
    lookupArg [("verbose", Value.vBool true)] "specific_test" =
        lookupArg [("verbose", Value.vBool false)] "specific_test" ∧
      getD [("verbose", Value.vBool true)] "rebuild" (Value.vBool false) =
        getD [("verbose", Value.vBool false)] "rebuild" (Value.vBool false) ∧
      run_tests envOk ⟨"/"⟩ [("verbose", Value.vBool true)] =
        run_tests envOk ⟨"/"⟩ [("verbose", Value.vBool false)] :=
  ⟨by decide, by decide,
    c10_run_tests_verbose_irrelevant envOk ⟨"/"⟩ _ _ (by decide) (by decide)⟩

/-! Section: C9: dispatcher state across handler calls -/

/-- C9 counterexample: the claim "for every sequence of callTool
invocations the Dispatcher process state after the sequence equals its
state before" is false on the code: `run_tests` calls
`os.chdir(REPO_ROOT)`, so starting from working directory "/start" a
single `run_tests` call leaves the process in a different state. -/
theorem c9_counterexample :
    runSeq envOk ⟨"/start"⟩ [("run_tests", [])] ≠ ⟨"/start"⟩ := by decide

theorem run_tests_state (env : Env) (st : PState) (args : Args) :
    (run_tests env st args).2.2 = st ∨ (run_tests env st args).2.2 = ⟨env.repoRoot⟩ := by
  simp only [run_tests]
  repeat' split
  all_goals first | exact Or.inl rfl | exact Or.inr rfl

theorem run_single_test_state (env : Env) (st : PState) (args : Args) :
    (run_single_test env st args).2.2 = st ∨
      (run_single_test env st args).2.2 = ⟨env.repoRoot⟩ := by
  simp only [run_single_test]
  repeat' split
  all_goals first
    | exact Or.inl rfl
    | exact Or.inr rfl
    | apply run_tests_state

theorem build_test_image_state (env : Env) (st : PState) (args : Args) :
    (build_test_image env st args).2.2 = st ∨
      (build_test_image env st args).2.2 = ⟨env.repoRoot⟩ := by
  simp only [build_test_image]
  repeat' split
  all_goals first | exact Or.inl rfl | exact Or.inr rfl

theorem call_tool_state (env : Env) (st : PState) (name : String) (args : Args) :
    (call_tool env st name args).2 = st ∨
      (call_tool env st name args).2 = ⟨env.repoRoot⟩ := by
  simp only [call_tool]
  repeat' split
  all_goals first
    | exact Or.inl rfl
    | apply run_tests_state
    | apply run_single_test_state
    | apply build_test_image_state

/-- C9 amended: the registry is a fixed constant and handlers mutate no
dispatcher state other than the process working directory; after any
sequence of `call_tool` invocations the process state is either
unchanged or has its working directory set to the repository root (the
sole effect of `os.chdir(REPO_ROOT)` in the handlers). -/
theorem c9_state_amended (env : Env) (st : PState) (seq : List (String × Args)) :
    runSeq env st seq = st ∨ runSeq env st seq = ⟨env.repoRoot⟩ := by
  induction seq generalizing st with
  | nil => exact Or.inl rfl
  | cons p rest ih =>
    obtain ⟨n, a⟩ := p
    simp only [runSeq]
    rcases call_tool_state env st n a with h | h
    · rw [h]; exact ih st
    · rw [h]
      rcases ih ⟨env.repoRoot⟩ with h2 | h2
      · exact Or.inr h2
      · exact Or.inr h2

theorem pyStrip_wrap {m : String} (sp : String)
    (hsp : ∀ c ∈ sp.data, isPySpace c = true)
    {c1 : Char} (h1 : m.data.head? = some c1) (hc1 : isPySpace c1 = false)
    {c2 : Char} (h2 : m.data.getLast? = some c2) (hc2 : isPySpace c2 = false) :
    pyStrip ("\n" ++ m ++ sp) = m := by
  apply pyStrip_sandwich
  · decide
  · exact hsp
  · intro c hc
    rw [h1] at hc
    rwa [Option.some_inj.mp hc] at hc1
  · intro c hc
    rw [h2] at hc
    rwa [Option.some_inj.mp hc] at hc2

/-! Section: C4: `check_docker_status` -/

theorem cda_of_ok (env : Env)
    (h1 : (spawnResult env ["docker", "--version"]).returncode = 0)
    (h2 : (spawnResult env ["docker", "compose", "version"]).returncode = 0) :
    check_docker_availability env =
      (Option.none, [["docker", "--version"], ["docker", "compose", "version"]]) := by
  simp [check_docker_availability, run_command, h1, h2]

theorem cda_of_fail1 (env : Env)
    (h1 : (spawnResult env ["docker", "--version"]).returncode ≠ 0) :
    check_docker_availability env =
      (some "Docker not found", [["docker", "--version"]]) := by
  simp [check_docker_availability, run_command, h1]

theorem cda_of_fail2 (env : Env)
    (h1 : (spawnResult env ["docker", "--version"]).returncode = 0)
    (h2 : (spawnResult env ["docker", "compose", "version"]).returncode ≠ 0) :
    check_docker_availability env =
      (some "Docker Compose not found",
        [["docker", "--version"], ["docker", "compose", "version"]]) := by
  simp [check_docker_availability, run_command, h1, h2]

theorem check_docker_status_text_ok (env : Env) (args : Args)
    (h1 : (spawnResult env ["docker", "--version"]).returncode = 0)
    (h2 : (spawnResult env ["docker", "compose", "version"]).returncode = 0) :
    responseText (check_docker_status env args).1 =
      "✅ Docker Environment Ready\n\nDocker: " ++
        pyStrip (spawnResult env ["docker", "--version"]).stdout ++
      "\nDocker Compose: " ++
        pyStrip (spawnResult env ["docker", "compose", "version"]).stdout ++
      "\n\nRepository: " ++ env.repoRoot ++
      "\nTest Script: " ++ (env.repoRoot ++ "/test/run-tests.sh") ++
      "\nDocker Compose File: " ++ (env.repoRoot ++ "/docker-compose.yml") := by
  simp only [check_docker_status, cda_of_ok env h1 h2, run_command, responseText,
    mkText, List.headD]
  generalize pyStrip (spawnResult env ["docker", "--version"]).stdout = A
  generalize pyStrip (spawnResult env ["docker", "compose", "version"]).stdout = B
  generalize env.repoRoot = R
  rw [show ("\n" ++ "✅ Docker Environment Ready\n\nDocker: " ++ A ++
      "\nDocker Compose: " ++ B ++ "\n\nRepository: " ++ R ++
      "\nTest Script: " ++ (R ++ "/test/run-tests.sh") ++
      "\nDocker Compose File: " ++ (R ++ "/docker-compose.yml") ++
      "\n            ") =
    ("\n" ++ ("✅ Docker Environment Ready\n\nDocker: " ++ A ++
      "\nDocker Compose: " ++ B ++ "\n\nRepository: " ++ R ++
      "\nTest Script: " ++ (R ++ "/test/run-tests.sh") ++
      "\nDocker Compose File: " ++ (R ++ "/docker-compose.yml")) ++
      "\n            ") from by simp only [String.append_assoc]]
  refine @pyStrip_wrap _ _ (by decide) '✅' ?_ (by decide) 'l' ?_ (by decide)
  · repeat' apply headCharOfAppend
    decide
  · apply lastCharOfAppend
    apply lastCharOfAppend
    decide

theorem check_docker_status_text_fail1 (env : Env) (args : Args)
    (h1 : (spawnResult env ["docker", "--version"]).returncode ≠ 0) :
    responseText (check_docker_status env args).1 =
      "❌ Docker Environment Not Available\n\nError: Docker not found\n\nPlease ensure Docker and Docker Compose are installed and running." := by
  simp only [check_docker_status, cda_of_fail1 env h1, run_command, responseText,
    mkText, List.headD]
  decide

theorem check_docker_status_text_fail2 (env : Env) (args : Args)
    (h1 : (spawnResult env ["docker", "--version"]).returncode = 0)
    (h2 : (spawnResult env ["docker", "compose", "version"]).returncode ≠ 0) :
    responseText (check_docker_status env args).1 =
      "❌ Docker Environment Not Available\n\nError: Docker Compose not found\n\nPlease ensure Docker and Docker Compose are installed and running." := by
  simp only [check_docker_status, cda_of_fail2 env h1 h2, run_command, responseText,
    mkText, List.headD]
  decide

/-- C4: `check_docker_status` reports success exactly when both
`docker --version` and `docker compose version` exit with code 0; the
success response contains both (stripped) version strings and the three
configured paths, and on failure the response is the "unavailable"
report citing which of the two checks failed. -/
theorem c4_check_docker_status :
    (∀ (env : Env) (args : Args),
        (spawnResult env ["docker", "--version"]).returncode = 0 →
        (spawnResult env ["docker", "compose", "version"]).returncode = 0 →
        containsStr (responseText (check_docker_status env args).1)
            (pyStrip (spawnResult env ["docker", "--version"]).stdout) ∧
        containsStr (responseText (check_docker_status env args).1)
            (pyStrip (spawnResult env ["docker", "compose", "version"]).stdout) ∧
        containsStr (responseText (check_docker_status env args).1) env.repoRoot ∧
        containsStr (responseText (check_docker_status env args).1)
            (env.repoRoot ++ "/test/run-tests.sh") ∧
        containsStr (responseText (check_docker_status env args).1)
            (env.repoRoot ++ "/docker-compose.yml")) ∧
    (∀ (env : Env) (args : Args),
        (spawnResult env ["docker", "--version"]).returncode ≠ 0 →
        responseText (check_docker_status env args).1 =
          "❌ Docker Environment Not Available\n\nError: Docker not found\n\nPlease ensure Docker and Docker Compose are installed and running.") ∧
    (∀ (env : Env) (args : Args),
        (spawnResult env ["docker", "--version"]).returncode = 0 →
        (spawnResult env ["docker", "compose", "version"]).returncode ≠ 0 →
        responseText (check_docker_status env args).1 =
          "❌ Docker Environment Not Available\n\nError: Docker Compose not found\n\nPlease ensure Docker and Docker Compose are installed and running.") ∧
    (∀ (env : Env) (args : Args),
        ((spawnResult env ["docker", "--version"]).returncode = 0 ∧
          (spawnResult env ["docker", "compose", "version"]).returncode = 0) ↔
        strStarts (responseText (check_docker_status env args).1)
          "✅ Docker Environment Ready") := by
  refine ⟨?_, ?_, ?_, ?_⟩
  · intro env args h1 h2
    rw [check_docker_status_text_ok env args h1 h2]
    generalize pyStrip (spawnResult env ["docker", "--version"]).stdout = A
    generalize pyStrip (spawnResult env ["docker", "compose", "version"]).stdout = B
    generalize env.repoRoot = R
    refine ⟨⟨"✅ Docker Environment Ready\n\nDocker: ",
        "\nDocker Compose: " ++ B ++ "\n\nRepository: " ++ R ++
        "\nTest Script: " ++ (R ++ "/test/run-tests.sh") ++
        "\nDocker Compose File: " ++ (R ++ "/docker-compose.yml"), ?_⟩,
      ⟨"✅ Docker Environment Ready\n\nDocker: " ++ A ++ "\nDocker Compose: ",
        "\n\nRepository: " ++ R ++
        "\nTest Script: " ++ (R ++ "/test/run-tests.sh") ++
        "\nDocker Compose File: " ++ (R ++ "/docker-compose.yml"), ?_⟩,
      ⟨"✅ Docker Environment Ready\n\nDocker: " ++ A ++ "\nDocker Compose: " ++ B ++
        "\n\nRepository: ",
        "\nTest Script: " ++ (R ++ "/test/run-tests.sh") ++
        "\nDocker Compose File: " ++ (R ++ "/docker-compose.yml"), ?_⟩,
      ⟨"✅ Docker Environment Ready\n\nDocker: " ++ A ++ "\nDocker Compose: " ++ B ++
        "\n\nRepository: " ++ R ++ "\nTest Script: ",
        "\nDocker Compose File: " ++ (R ++ "/docker-compose.yml"), ?_⟩,
      ⟨"✅ Docker Environment Ready\n\nDocker: " ++ A ++ "\nDocker Compose: " ++ B ++
        "\n\nRepository: " ++ R ++ "\nTest Script: " ++ (R ++ "/test/run-tests.sh") ++
        "\nDocker Compose File: ", "", ?_⟩⟩ <;>
      · refine String.ext ?_
        simp only [String.data_append, List.append_assoc, List.append_nil]
  · intro env args h1
    exact check_docker_status_text_fail1 env args h1
  · intro env args h1 h2
    exact check_docker_status_text_fail2 env args h1 h2
  · intro env args
    constructor
    · rintro ⟨h1, h2⟩
      rw [check_docker_status_text_ok env args h1 h2]
      refine ⟨"\n\nDocker: " ++ pyStrip (spawnResult env ["docker", "--version"]).stdout ++
        "\nDocker Compose: " ++
        pyStrip (spawnResult env ["docker", "compose", "version"]).stdout ++
        "\n\nRepository: " ++ env.repoRoot ++
        "\nTest Script: " ++ (env.repoRoot ++ "/test/run-tests.sh") ++
        "\nDocker Compose File: " ++ (env.repoRoot ++ "/docker-compose.yml"), ?_⟩
      rw [show ("✅ Docker Environment Ready\n\nDocker: " : String) =
        "✅ Docker Environment Ready" ++ "\n\nDocker: " from by decide]
      refine String.ext ?_
      simp only [String.data_append, List.append_assoc]
    · intro hst
      by_contra hnot
      by_cases h1 : (spawnResult env ["docker", "--version"]).returncode = 0
      · have h2 : (spawnResult env ["docker", "compose", "version"]).returncode ≠ 0 :=
          fun h => hnot ⟨h1, h⟩
        rw [check_docker_status_text_fail2 env args h1 h2] at hst
        exact absurd (strStarts_take hst) (by decide)
      · rw [check_docker_status_text_fail1 env args h1] at hst
        exact absurd (strStarts_take hst) (by decide)

/-- C4 witness: the success case in the all-ok environment and the
"Docker not found" case in the all-spawns-raise environment. -/
theorem c4_check_docker_status_witness :
    (spawnResult envOk ["docker", "--version"]).returncode = 0 ∧
      (spawnResult envOk ["docker", "compose", "version"]).returncode = 0 ∧
      containsStr (responseText (check_docker_status envOk []).1)
        (pyStrip (spawnResult envOk ["docker", "--version"]).stdout) ∧
      (spawnResult envFail ["docker", "--version"]).returncode ≠ 0 ∧
      responseText (check_docker_status envFail []).1 =
        "❌ Docker Environment Not Available\n\nError: Docker not found\n\nPlease ensure Docker and Docker Compose are installed and running." :=
  ⟨rfl, rfl, (c4_check_docker_status.1 envOk [] rfl rfl).1, by decide,
    c4_check_docker_status.2.1 envFail [] (by decide)⟩

/-! Section: C7: `run_tests` with a specific test targets exactly that file
and reports the real exit code of the executor -/

/-- C7: with `specific_test = "test_uci_config.lua"`, Docker available
(both version checks exit 0) and no rebuild requested, `run_tests`
passes the executor exactly the two availability checks followed by the
`docker compose run` invocation naming `test/test_uci_config.lua`, and
the response text contains a "Return Code" field equal to the exit code
the executor actually returned for that command. -/
theorem c7_run_tests_specific_test (env : Env) (st : PState) (args : Args)
    (hs : lookupArg args "specific_test" = some (Value.vStr "test_uci_config.lua"))
    (hr : (getD args "rebuild" (Value.vBool false)).truthy = false)
    (hch : env.chdir = Except.ok ())
    (h1 : (spawnResult env ["docker", "--version"]).returncode = 0)
    (h2 : (spawnResult env ["docker", "compose", "version"]).returncode = 0) :
    (run_tests env st args).2.1 =
      [["docker", "--version"], ["docker", "compose", "version"],
       ["docker", "compose", "run", "--rm", "lua-test", "sh", "-c",
        "echo \x27=== Running test_uci_config.lua ===\x27 && lua test/test_uci_config.lua"]] ∧
    containsStr (responseText (run_tests env st args).1)
      ("Return Code: " ++ toString (spawnResult env
        ["docker", "compose", "run", "--rm", "lua-test", "sh", "-c",
         "echo \x27=== Running test_uci_config.lua ===\x27 && lua test/test_uci_config.lua"]).returncode) := by
  have hcda := cda_of_ok env h1 h2
  constructor
  · simp [run_tests, run_command, hch, hcda, hs, hr,
      show optTruthy (some (Value.vStr "test_uci_config.lua")) = true from by decide,
      show optStr (some (Value.vStr "test_uci_config.lua")) = "test_uci_config.lua" from rfl]
  · simp [run_tests, run_command, hch, hcda, hs, hr, responseText, mkText,
      show optTruthy (some (Value.vStr "test_uci_config.lua")) = true from by decide,
      show optStr (some (Value.vStr "test_uci_config.lua")) = "test_uci_config.lua" from rfl]
    generalize (spawnResult env ["docker", "compose", "run", "--rm", "lua-test", "sh", "-c",
      "echo \x27=== Running test_uci_config.lua ===\x27 && lua test/test_uci_config.lua"]).returncode = rc
    generalize (spawnResult env ["docker", "compose", "run", "--rm", "lua-test", "sh", "-c",
        "echo \x27=== Running test_uci_config.lua ===\x27 && lua test/test_uci_config.lua"]).stdout ++
      (spawnResult env ["docker", "compose", "run", "--rm", "lua-test", "sh", "-c",
        "echo \x27=== Running test_uci_config.lua ===\x27 && lua test/test_uci_config.lua"]).stderr = OUT
    by_cases hrc0 : rc = 0
    · simp only [if_pos hrc0]
      rw [show ("\n" ++ "✅ PASSED" ++ " - UCI Config Tool Tests\n\n" ++ "Return Code: " ++
          toString rc ++ "\n\n=== TEST OUTPUT ===\n" ++ OUT ++ "\n\n=== SUMMARY ===\nTests " ++
          "completed successfully" ++ "\n        ") =
        "\n" ++ ("✅ PASSED" ++ " - UCI Config Tool Tests\n\n" ++ "Return Code: " ++
          toString rc ++ "\n\n=== TEST OUTPUT ===\n" ++ OUT ++ "\n\n=== SUMMARY ===\nTests " ++
          "completed successfully") ++ "\n        " from by simp only [String.append_assoc]]
      rw [@pyStrip_wrap _ _ (by decide) '✅'
        (by (repeat' apply headCharOfAppend); decide) (by decide) 'y'
        (by apply lastCharOfAppend; decide) (by decide)]
      exact ⟨"✅ PASSED" ++ " - UCI Config Tool Tests\n\n",
        "\n\n=== TEST OUTPUT ===\n" ++ OUT ++ "\n\n=== SUMMARY ===\nTests " ++
          "completed successfully",
        by refine String.ext ?_; simp only [String.data_append, List.append_assoc]⟩
    · simp only [if_neg hrc0]
      rw [show ("\n" ++ "❌ FAILED" ++ " - UCI Config Tool Tests\n\n" ++ "Return Code: " ++
          toString rc ++ "\n\n=== TEST OUTPUT ===\n" ++ OUT ++ "\n\n=== SUMMARY ===\nTests " ++
          "failed" ++ "\n        ") =
        "\n" ++ ("❌ FAILED" ++ " - UCI Config Tool Tests\n\n" ++ "Return Code: " ++
          toString rc ++ "\n\n=== TEST OUTPUT ===\n" ++ OUT ++ "\n\n=== SUMMARY ===\nTests " ++
          "failed") ++ "\n        " from by simp only [String.append_assoc]]
      rw [@pyStrip_wrap _ _ (by decide) '❌'
        (by (repeat' apply headCharOfAppend); decide) (by decide) 'd'
        (by apply lastCharOfAppend; decide) (by decide)]
      exact ⟨"❌ FAILED" ++ " - UCI Config Tool Tests\n\n",
        "\n\n=== TEST OUTPUT ===\n" ++ OUT ++ "\n\n=== SUMMARY ===\nTests " ++ "failed",
        by refine String.ext ?_; simp only [String.data_append, List.append_assoc]⟩

/-- C7 witness: instantiation in the all-ok environment. -/
theorem c7_run_tests_specific_test_witness :
    lookupArg [("specific_test", Value.vStr "test_uci_config.lua")] "specific_test" =
        some (Value.vStr "test_uci_config.lua") ∧
      (getD [("specific_test", Value.vStr "test_uci_config.lua")] "rebuild"
          (Value.vBool false)).truthy = false ∧
      envOk.chdir = Except.ok () ∧
      (spawnResult envOk ["docker", "--version"]).returncode = 0 ∧
      (spawnResult envOk ["docker", "compose", "version"]).returncode = 0 ∧
      ((run_tests envOk ⟨"/"⟩ [("specific_test", Value.vStr "test_uci_config.lua")]).2.1 =
        [["docker", "--version"], ["docker", "compose", "version"],
         ["docker", "compose", "run", "--rm", "lua-test", "sh", "-c",
          "echo \x27=== Running test_uci_config.lua ===\x27 && lua test/test_uci_config.lua"]] ∧
      containsStr (responseText
          (run_tests envOk ⟨"/"⟩ [("specific_test", Value.vStr "test_uci_config.lua")]).1)
        ("Return Code: " ++ toString (spawnResult envOk
          ["docker", "compose", "run", "--rm", "lua-test", "sh", "-c",
           "echo \x27=== Running test_uci_config.lua ===\x27 && lua test/test_uci_config.lua"]).returncode)) :=
  ⟨rfl, by decide, rfl, rfl, rfl,
    c7_run_tests_specific_test envOk ⟨"/"⟩
      [("specific_test", Value.vStr "test_uci_config.lua")] rfl (by decide) rfl rfl rfl⟩

end Mcp
